import Mathlib

/-!
Verification of `src/Task02/generate_db_init.py` (SQLite init-script generator).

The Python source is shallowly embedded below.  Pure functions become Lean
functions with the source's names; Python values that can be `None`, `str`
or `int` (the only value shapes that reach the SQL emitter) are embedded as
the `PyVal` type.  Machine-independent caveats of the embedding are noted in
the doc comment of each definition.  Character-level string operations are
modelled on `List Char` (the `data` of a `String`).
-/

/-- The single-quote character `'` (code point 39), used by `sql_quote`. -/
def squote : Char := Char.ofNat 39

/-- One-character string holding `squote`. -/
def sqString : String := String.mk [squote]

/-- Whitespace as recognised by Python's `str.strip()` / `\s`, restricted to
the ASCII range (space, tab, newline, carriage return, vertical tab, form
feed).  Python additionally strips non-ASCII Unicode whitespace, which never
occurs in this data set and is not modelled. -/
def pyIsSpace (c : Char) : Bool :=
  c = ' ' || c = '\t' || c = '\n' || c = '\r' || c = '\x0b' || c = '\x0c'

/-- ASCII decimal digit, modelling Python's `\d` and the digits accepted by
`int()` / `float()` (Python also accepts non-ASCII Unicode digits; the data
set is ASCII and they are not modelled). -/
def pyIsDigit (c : Char) : Bool := 48 ≤ c.toNat && c.toNat ≤ 57

/-- Numeric value of an ASCII digit. -/
def digitVal (c : Char) : Nat := c.toNat - 48

/-- ASCII lower-casing, modelling Python's `str.lower()` on the ASCII range
(the header keywords checked by `read_csv_rows` are all ASCII). -/
def pyToLower (c : Char) : Char :=
  if 65 ≤ c.toNat && c.toNat ≤ 90 then Char.ofNat (c.toNat + 32) else c

/-- Remove trailing characters satisfying `pyIsSpace` — Python `str.rstrip()`
on a character list. -/
def rstripList (cs : List Char) : List Char :=
  (cs.reverse.dropWhile pyIsSpace).reverse

/-- Remove leading and trailing whitespace — Python `str.strip()` on a
character list. -/
def stripList (cs : List Char) : List Char :=
  rstripList (cs.dropWhile pyIsSpace)

/-- Python `str.strip()`. -/
def pyStrip (s : String) : String := String.mk (stripList s.toList)

/-- Python `str.rstrip()`. -/
def pyRstrip (s : String) : String := String.mk (rstripList s.toList)

/-- The shapes of Python values that reach the SQL emitter: `None`, a string
field, or an `int` (the extracted movie year). -/
inductive PyVal where
  | vNone : PyVal
  | vStr : String → PyVal
  | vInt : Int → PyVal
deriving DecidableEq, Repr

/-- Python `str(value)` for the value shapes of `PyVal`. -/
def pyValStr (v : PyVal) : String :=
  match v with
  | .vNone => "None"
  | .vStr s => s
  | .vInt n => toString n

/-- Python `value.replace(squote-string, two-squote-string)` specialised to a
one-character needle: every single quote is doubled, all other characters
are kept.  (For a one-character needle Python's left-to-right non-overlapping
replacement is exactly this character map.) -/
def escQuote : List Char → List Char
  | [] => []
  | c :: cs => if c = squote then squote :: squote :: escQuote cs else c :: escQuote cs

/-- Embedding of `sql_quote` (src lines 57-60): `None` becomes the literal
`NULL`; any other value is rendered with `str` and wrapped in single quotes
with every embedded single quote doubled. -/
def sql_quote (value : PyVal) : String :=
  match value with
  | .vNone => "NULL"
  | v => sqString ++ String.mk (escQuote (pyValStr v).toList) ++ sqString

/-- Collapse doubled single quotes (the inverse direction of the standard SQL
string-literal escaping): `''` decodes to one quote, everything else is kept. -/
def collapseQuotes : List Char → List Char
  | [] => []
  | [c] => [c]
  | c :: c2 :: cs =>
    if c = squote ∧ c2 = squote then c :: collapseQuotes cs
    else c :: collapseQuotes (c2 :: cs)

/-- The standard SQL string-literal decoding rule (from the spec, §8): strip
the outer single quotes, then collapse each doubled quote; `none` when the
input is not a well-formed quoted literal. -/
def sql_unquote (s : String) : Option String :=
  match s.toList with
  | c :: cs =>
    if c = squote then
      match cs.reverse with
      | c2 :: midRev =>
        if c2 = squote then some (String.mk (collapseQuotes midRev.reverse)) else none
      | [] => none
    else none
  | [] => none

/-- Embedding of `detect_movies_schema` (src lines 17-23): ignores its sample
row and returns the fixed movies schema. -/
def detect_movies_schema (_sampleRow : List String) : List (String × String) :=
  [("id", "INTEGER PRIMARY KEY"),
   ("title", "TEXT NOT NULL"),
   ("year", "INTEGER"),
   ("genres", "TEXT")]

/-- Embedding of `detect_ratings_schema` (src lines 26-33). -/
def detect_ratings_schema (_sampleRow : List String) : List (String × String) :=
  [("id", "INTEGER PRIMARY KEY"),
   ("user_id", "INTEGER NOT NULL"),
   ("movie_id", "INTEGER NOT NULL"),
   ("rating", "REAL NOT NULL"),
   ("timestamp", "INTEGER NOT NULL")]

/-- Embedding of `detect_tags_schema` (src lines 36-43). -/
def detect_tags_schema (_sampleRow : List String) : List (String × String) :=
  [("id", "INTEGER PRIMARY KEY"),
   ("user_id", "INTEGER NOT NULL"),
   ("movie_id", "INTEGER NOT NULL"),
   ("tag", "TEXT NOT NULL"),
   ("timestamp", "INTEGER NOT NULL")]

/-- Embedding of `detect_users_schema` (src lines 46-54). -/
def detect_users_schema (_sampleRow : List String) : List (String × String) :=
  [("id", "INTEGER PRIMARY KEY"),
   ("name", "TEXT NOT NULL"),
   ("email", "TEXT NOT NULL"),
   ("gender", "TEXT"),
   ("register_date", "TEXT NOT NULL"),
   ("occupation", "TEXT")]

/-- Embedding of `generate_create_table_sql` (src lines 112-114). -/
def generate_create_table_sql (tableName : String) (columns : List (String × String)) : String :=
  let colsSql := String.intercalate ",\n    " (columns.map (fun nc => nc.1 ++ " " ++ nc.2))
  "DROP TABLE IF EXISTS " ++ tableName ++ ";\nCREATE TABLE " ++ tableName ++
    " (\n    " ++ colsSql ++ "\n);\n"

/-- Optional leading sign of a Python numeric literal: consumes one `+` or
`-` and reports whether the value is negated. -/
def parseSign : List Char → Bool × List Char
  | '+' :: cs => (false, cs)
  | '-' :: cs => (true, cs)
  | cs => (false, cs)

/-- Consume a run of ASCII digits with single underscores allowed strictly
between digits (Python's numeric-literal grammar).  Returns the accumulated
value, the number of digits consumed so far, and the rest of the input; an
underscore not followed by a digit is left unconsumed. -/
def digitRunAux : Nat → Nat → List Char → Nat × Nat × List Char
  | acc, k, [] => (acc, k, [])
  | acc, k, [c] =>
    if pyIsDigit c then (10 * acc + digitVal c, k + 1, []) else (acc, k, [c])
  | acc, k, c :: d :: cs =>
    if pyIsDigit c then digitRunAux (10 * acc + digitVal c) (k + 1) (d :: cs)
    else if c = '_' ∧ pyIsDigit d then digitRunAux (10 * acc + digitVal d) (k + 1) cs
    else (acc, k, c :: d :: cs)

/-- A digit run that starts only when the first character is a digit
(a leading underscore is not consumed). -/
def startDigitRun (cs : List Char) : Nat × Nat × List Char :=
  match cs with
  | c :: _ => if pyIsDigit c then digitRunAux 0 0 cs else (0, 0, cs)
  | [] => (0, 0, [])

/-- Apply a parsed sign to a natural number, giving the Python `int` value. -/
def signedInt (neg : Bool) (n : Nat) : Int :=
  if neg then -(n : Int) else (n : Int)

/-- Python `int(s)` for a string argument: strip whitespace, optional sign,
then a non-empty all-consuming digit run (underscores allowed between
digits); `none` when `int()` would raise `ValueError`. -/
def py_int_of_string (s : String) : Option Int :=
  let p := parseSign (stripList s.toList)
  match p.2 with
  | [] => none
  | c :: cs =>
    if pyIsDigit c then
      let r := digitRunAux 0 0 (c :: cs)
      if r.2.2 = [] then some (signedInt p.1 r.1) else none
    else none

/-- Result of a successful Python `float(...)` parse.  A finite result is
kept as the exact decimal `(-1)^neg * mant * 10^exp` read from the string;
the rounding of this decimal to an IEEE-754 binary64 value is NOT modelled. -/
inductive PyFloat where
  | finite : Bool → Nat → Int → PyFloat
  | inf : Bool → PyFloat
  | nan : Bool → PyFloat
deriving DecidableEq, Repr

/-- Python `float(s)` for a string argument: strip whitespace, optional
sign, then either a case-insensitive `inf`/`infinity`/`nan` or a decimal
number `digits [. digits] [(e|E) [sign] digits]` with at least one mantissa
digit, underscores allowed between digits; `none` when `float()` would
raise `ValueError`. -/
def py_float_of_string (s : String) : Option PyFloat :=
  let p := parseSign (stripList s.toList)
  let low := p.2.map pyToLower
  if low = "inf".toList ∨ low = "infinity".toList then some (.inf p.1)
  else if low = "nan".toList then some (.nan p.1)
  else
    let ir := startDigitRun p.2
    let fres : Nat × Nat × List Char :=
      match ir.2.2 with
      | '.' :: rest => startDigitRun rest
      | _ => (0, 0, ir.2.2)
    if ir.2.1 + fres.2.1 = 0 then none
    else
      match fres.2.2 with
      | [] => some (.finite p.1 (ir.1 * 10 ^ fres.2.1 + fres.1) (-(fres.2.1 : Int)))
      | e :: rest =>
        if e = 'e' ∨ e = 'E' then
          let ps := parseSign rest
          let er := startDigitRun ps.2
          if er.2.1 = 0 ∨ er.2.2 ≠ [] then none
          else some (.finite p.1 (ir.1 * 10 ^ fres.2.1 + fres.1)
                       (signedInt ps.1 er.1 - (fres.2.1 : Int)))
        else none

/-- Embedding of `try_int` (src lines 63-67): `int(value)` with every
exception turned into `None`.  `int` of an `int` is the identity; `int` of
`None` raises `TypeError` (caught by the bare `except`). -/
def try_int (v : PyVal) : Option Int :=
  match v with
  | .vNone => none
  | .vStr s => py_int_of_string s
  | .vInt n => some n

/-- Embedding of `try_float` (src lines 70-74): `float(value)` with every
exception turned into `None`.  `float` of an `int` is its exact value
(binary64 overflow for astronomically large ints is not modelled); `float`
of `None` raises `TypeError` (caught). -/
def try_float (v : PyVal) : Option PyFloat :=
  match v with
  | .vNone => none
  | .vStr s => py_float_of_string s
  | .vInt n => some (.finite (decide (n < 0)) n.natAbs 0)

/-- Decimal digits of a natural number, as a string. -/
def natDigits (n : Nat) : String := toString n

/-- Python `str(float)` for the `PyFloat` model: `inf`, `-inf` and `nan` are
rendered exactly as CPython does; a finite value is rendered as its exact
decimal expansion with a `.0` tail for integral values and trailing zeros of
the fraction removed.  CPython instead prints the shortest decimal that
round-trips through the nearest binary64 value and switches to scientific
notation for very large/small magnitudes; the two renderings agree on short
decimals that are exactly representable, and no theorem below depends on the
finite case. -/
def py_float_str (f : PyFloat) : String :=
  match f with
  | .inf neg => if neg then "-inf" else "inf"
  | .nan _ => "nan"
  | .finite neg m e =>
    let sign := if neg then "-" else ""
    if 0 ≤ e then
      sign ++ natDigits m ++ String.mk (List.replicate e.toNat '0') ++ ".0"
    else
      let k := (-e).toNat
      let ip := m / 10 ^ k
      let frDigits := (natDigits (m % 10 ^ k)).toList
      let padded := List.replicate (k - frDigits.length) '0' ++ frDigits
      let stripped := (padded.reverse.dropWhile (· = '0')).reverse
      let fr := if stripped = [] then ['0'] else stripped
      sign ++ natDigits ip ++ "." ++ String.mk fr

/-- Python's substring test `needle in hay` on character lists: `needle`
occurs contiguously in `hay` (always true for an empty needle). -/
def subListOf (needle : List Char) : List Char → Bool
  | [] => needle.isEmpty
  | h :: t => needle.isPrefixOf (h :: t) || subListOf needle t

/-- The value-coercion step of `generate_insert_sql` (the body of its inner
loop, src lines 125-135): `None` and the empty string become the literal
`NULL`; a type containing `INTEGER` goes through `try_int`, then a type
containing `REAL` through `try_float`, each emitting `NULL` on a failed
parse; anything else is quoted as TEXT via `sql_quote`. -/
def coerce_value (ctype : String) (v : PyVal) : String :=
  if v = PyVal.vNone ∨ v = PyVal.vStr "" then "NULL"
  else if subListOf "INTEGER".toList ctype.toList then
    match try_int v with
    | none => "NULL"
    | some iv => toString iv
  else if subListOf "REAL".toList ctype.toList then
    match try_float v with
    | none => "NULL"
    | some fv => py_float_str fv
  else sql_quote v

/-- The per-row value list of `generate_insert_sql` (src lines 120-135):
each declared column looks up its value by the first index of its name in
the declared column-name list, out-of-range access yielding `None`. -/
def rowVals (columns : List (String × String)) (r : List PyVal) : List String :=
  let colNames := columns.map Prod.fst
  columns.map (fun nc => coerce_value nc.2 ((r[colNames.indexOf nc.1]?).getD PyVal.vNone))

/-- Embedding of `generate_insert_sql` (src lines 117-139): the empty row
list yields the empty string, otherwise one multi-row INSERT statement. -/
def generate_insert_sql (tableName : String) (columns : List (String × String))
    (rows : List (List PyVal)) : String :=
  let colNames := columns.map Prod.fst
  let valuesSql := rows.map (fun r => "(" ++ String.intercalate ", " (rowVals columns r) ++ ")")
  if valuesSql.isEmpty then ""
  else
    "INSERT INTO " ++ tableName ++ " (" ++ String.intercalate ", " colNames ++
      ") VALUES\n" ++ String.intercalate ",\n" valuesSql ++ ";\n"

/-- Value of the four year digits captured by `year_pattern`, as a Python
`int` (`int(m.group(1))` on four ASCII digits never raises). -/
def yearNum (a b c d : Char) : Int :=
  ((1000 * digitVal a + 100 * digitVal b + 10 * digitVal c + digitVal d : Nat) : Int)

/-- Does a (already stripped) title end with the `year_pattern` suffix
`(dddd)`?  On a whitespace-stripped string the regex `\((\d{4})\)\s*$`
matches exactly when the last six characters are `(`, four digits, `)`:
`\s*` can only match the empty string at the end, `$` anchors the match to
the end, and the leftmost such match is precisely that suffix. -/
def endsWithYearTag (cs : List Char) : Bool :=
  match cs.reverse with
  | c0 :: d3 :: d2 :: d1 :: d0 :: c5 :: _ =>
    (c0 == ')') && (c5 == '(') && pyIsDigit d0 && pyIsDigit d1 && pyIsDigit d2 && pyIsDigit d3
  | _ => false

/-- The trailing-comma cleanup of `extract_year_and_clean_title` (src lines
107-108): if the title left after removing the year suffix ends with a
comma, drop that comma and rstrip again. -/
def stripTrailingComma (t : List Char) : List Char :=
  match t.reverse with
  | c :: rest2 => if c = ',' then rstripList rest2.reverse else t
  | [] => t

/-- Embedding of `extract_year_and_clean_title` (src lines 95-109).  `None`
maps to `(None, None)`.  Otherwise the raw title is stripped; if it ends
with the `year_pattern` suffix `(dddd)` (see `endsWithYearTag`), the year is
the four digits as an `int` and the title is the prefix, rstripped
(`year_pattern.sub("", title).rstrip()` removes exactly that six-character
suffix on a stripped string), then with one trailing comma (and whitespace)
stripped; with no match the stripped title is returned with year `None`. -/
def extract_year_and_clean_title (rawTitle : Option String) : Option String × Option Int :=
  match rawTitle with
  | none => (none, none)
  | some raw =>
    let title := pyStrip raw
    match title.toList.reverse with
    | c0 :: d3 :: d2 :: d1 :: d0 :: c5 :: rest =>
      if c0 = ')' ∧ c5 = '(' ∧ pyIsDigit d0 ∧ pyIsDigit d1 ∧ pyIsDigit d2 ∧ pyIsDigit d3 then
        (some (String.mk (stripTrailingComma (rstripList rest.reverse))),
         some (yearNum d0 d1 d2 d3))
      else (some title, none)
    | _ => (some title, none)

/-- `None`-or-string row field as a `PyVal`. -/
def optStrVal : Option String → PyVal
  | none => PyVal.vNone
  | some s => PyVal.vStr s

/-- `None`-or-int row field as a `PyVal`. -/
def optIntVal : Option Int → PyVal
  | none => PyVal.vNone
  | some n => PyVal.vInt n

/-- The movies row transformation of `main` (src lines 154-159): guard the
three raw fields against short rows, split the raw title through the Title
Parser, and build the four-value row `[id, title, year, genres]`. -/
def movie_row_transform (r : List String) : List PyVal :=
  let movieId := r[0]?
  let rawTitle := r[1]?
  let genres := r[2]?
  let res := extract_year_and_clean_title rawTitle
  [optStrVal movieId, optStrVal res.1, optIntVal res.2, optStrVal genres]

/-- A raw CSV row (all string fields) as a `PyVal` row. -/
def strRow (r : List String) : List PyVal := r.map PyVal.vStr

/-- The fixed header comment of the generated script (src line 171). -/
def scriptHeader : String := "-- SQLite init script for movies_rating.db"

/-- The script-assembly of `main` (src lines 170-193), starting from the
four lists of raw data rows (file access and the missing-file check are
outside the embedding): header comment, PRAGMA, BEGIN, the four DROP+CREATE
blocks, the four INSERT blocks each present only when its dataset has rows,
COMMIT; the non-empty parts are joined with a blank line
(`"\n\n".join(p for p in sql_parts if p)`). -/
def build_script (rawMovieRows ratingRows tagRows userRows : List (List String)) : String :=
  let moviesColumns := detect_movies_schema (rawMovieRows.headD [])
  let ratingsColumns := detect_ratings_schema (ratingRows.headD [])
  let tagsColumns := detect_tags_schema (tagRows.headD [])
  let usersColumns := detect_users_schema (userRows.headD [])
  let movieRows := rawMovieRows.map movie_row_transform
  let sqlParts : List String :=
    [scriptHeader, "PRAGMA foreign_keys = OFF;", "BEGIN TRANSACTION;",
     generate_create_table_sql "movies" moviesColumns,
     generate_create_table_sql "ratings" ratingsColumns,
     generate_create_table_sql "tags" tagsColumns,
     generate_create_table_sql "users" usersColumns]
    ++ (if movieRows.isEmpty then [] else [generate_insert_sql "movies" moviesColumns movieRows])
    ++ (if ratingRows.isEmpty then []
        else [generate_insert_sql "ratings" ratingsColumns (ratingRows.map strRow)])
    ++ (if tagRows.isEmpty then []
        else [generate_insert_sql "tags" tagsColumns (tagRows.map strRow)])
    ++ (if userRows.isEmpty then []
        else [generate_insert_sql "users" usersColumns (userRows.map strRow)])
    ++ ["COMMIT;"]
  String.intercalate "\n\n" (sqlParts.filter (fun p => !p.isEmpty))

/-- Parser states of Python's `csv.reader` (default dialect: quote character
`"`, doublequote on, no escape character, non-strict). -/
inductive CsvSt where
  | recStart : CsvSt
  | fieldStart : CsvSt
  | inField : CsvSt
  | inQuoted : CsvSt
  | quoteEnd : CsvSt
deriving DecidableEq, Repr

/-- State machine of Python's `csv.reader` with delimiter `d` and the
default dialect, over characters already newline-normalised by text-mode
reading (`\r\n` and `\r` become `\n`).  `field` is the field being built,
`rec` the fields of the record being built, `out` the finished records. -/
def csvParseAux (d : Char) : CsvSt → List Char → List String → List (List String) →
    List Char → List (List String)
  | st, field, rec, out, [] =>
    (match st with
     | .recStart => out
     | _ => out ++ [rec ++ [String.mk field]])
  | st, field, rec, out, c :: cs =>
    match st with
    | .recStart =>
      if c = '"' then csvParseAux d .inQuoted [] rec out cs
      else if c = d then csvParseAux d .fieldStart [] (rec ++ [""]) out cs
      else if c = '\n' then csvParseAux d .recStart [] [] (out ++ [[]]) cs
      else csvParseAux d .inField [c] rec out cs
    | .fieldStart =>
      if c = '"' then csvParseAux d .inQuoted [] rec out cs
      else if c = d then csvParseAux d .fieldStart [] (rec ++ [""]) out cs
      else if c = '\n' then csvParseAux d .recStart [] [] (out ++ [rec ++ [""]]) cs
      else csvParseAux d .inField [c] rec out cs
    | .inField =>
      if c = d then csvParseAux d .fieldStart [] (rec ++ [String.mk field]) out cs
      else if c = '\n' then csvParseAux d .recStart [] [] (out ++ [rec ++ [String.mk field]]) cs
      else csvParseAux d .inField (field ++ [c]) rec out cs
    | .inQuoted =>
      if c = '"' then csvParseAux d .quoteEnd field rec out cs
      else csvParseAux d .inQuoted (field ++ [c]) rec out cs
    | .quoteEnd =>
      if c = '"' then csvParseAux d .inQuoted (field ++ ['"']) rec out cs
      else if c = d then csvParseAux d .fieldStart [] (rec ++ [String.mk field]) out cs
      else if c = '\n' then csvParseAux d .recStart [] [] (out ++ [rec ++ [String.mk field]]) cs
      else csvParseAux d .inField (field ++ [c]) rec out cs

/-- All records produced by `csv.reader` on the full file content. -/
def csvParse (content : String) (d : Char) : List (List String) :=
  csvParseAux d .recStart [] [] [] content.toList

/-- Python `f.readline()` on the file content: everything up to and
including the first newline (the whole content when it has none). -/
def firstPhysicalLine (content : String) : String :=
  let cs := content.toList
  let pre := cs.takeWhile (fun c => c != '\n')
  if pre.length = cs.length then content else String.mk (pre ++ ['\n'])

/-- The fixed header-keyword list of `read_csv_rows` (src line 82). -/
def headerKeywords : List String :=
  ["id", "title", "user_id", "movie_id", "rating", "timestamp", "name", "email"]

/-- Header-detection heuristic of `read_csv_rows` (src lines 79-83): does the
lower-cased first physical line contain any of the fixed keywords as a
substring? -/
def hasHeaderLine (content : String) : Bool :=
  headerKeywords.any (fun h => subListOf h.toList ((firstPhysicalLine content).toList.map pyToLower))

/-- Embedding of `read_csv_rows` (src lines 77-89), applied to the whole
file content instead of a path: detect a header from the first physical
line, parse the content with `csv.reader`, skip the first record when a
header was detected (`next(reader, None)`), and keep only the rows that are
non-empty and have at least one field that is non-blank after stripping. -/
def read_csv_rows (content : String) (delim : Char) : List (List String) :=
  let records := csvParse content delim
  let records := if hasHeaderLine content then records.drop 1 else records
  records.filter (fun row => !row.isEmpty && row.any (fun col => !(pyStrip col).isEmpty))

theorem escQuote_eq_nil_iff (cs : List Char) : escQuote cs = [] ↔ cs = [] := by
  cases cs with
  | nil => simp [escQuote]
  | cons c cs => simp only [escQuote]; split <;> simp

theorem collapseQuotes_escQuote (cs : List Char) : collapseQuotes (escQuote cs) = cs := by
  induction cs with
  | nil => rfl
  | cons c cs ih =>
    by_cases hc : c = squote
    · subst hc
      rw [escQuote, if_pos rfl, collapseQuotes, if_pos ⟨rfl, rfl⟩, ih]
    · rw [escQuote, if_neg hc]
      cases h : escQuote cs with
      | nil =>
        have hnil : cs = [] := (escQuote_eq_nil_iff cs).mp h
        subst hnil
        rfl
      | cons e es =>
        rw [collapseQuotes, if_neg (fun hand => hc hand.1), ← h, ih]

theorem sql_quote_toList (s : String) :
    (sql_quote (PyVal.vStr s)).toList = squote :: (escQuote s.toList ++ [squote]) := rfl

/-- C3: for every string, the TEXT quoting operation wraps the string in
single quotes (first and last character of the literal are single quotes)
and doubles every embedded single quote, and decoding the resulting literal
by the standard rule (strip the outer quotes, collapse each doubled quote)
reproduces the original string exactly; concretely, quoting the string
`O'x` yields the literal `'O''x'`. -/
theorem sql_quote_roundtrip :
    (∀ s : String,
       (sql_quote (PyVal.vStr s)).toList.head? = some squote
       ∧ (sql_quote (PyVal.vStr s)).toList.getLast? = some squote
       ∧ sql_unquote (sql_quote (PyVal.vStr s)) = some s)
    ∧ sql_quote (PyVal.vStr (String.mk ['O', squote, 'x']))
        = String.mk [squote, 'O', squote, squote, 'x', squote] := by
  constructor
  · intro s
    refine ⟨by rw [sql_quote_toList]; rfl, ?_, ?_⟩
    · rw [sql_quote_toList, ← List.cons_append, List.getLast?_concat]
    · rw [sql_unquote, sql_quote_toList]
      simp only [if_pos rfl, List.reverse_append, List.reverse_cons, List.reverse_nil,
        List.nil_append, List.singleton_append, if_pos rfl, List.reverse_reverse,
        collapseQuotes_escQuote]
      rfl
  · decide

/-- C4: each of the four schema lookups ignores its sample-row argument and
returns the same fixed ordered column list, and the generated CREATE TABLE
statement lists exactly these columns in this order. -/
theorem schema_catalog_fixed : ∀ r : List String,
    detect_movies_schema r =
      [("id", "INTEGER PRIMARY KEY"), ("title", "TEXT NOT NULL"),
       ("year", "INTEGER"), ("genres", "TEXT")]
    ∧ detect_ratings_schema r =
      [("id", "INTEGER PRIMARY KEY"), ("user_id", "INTEGER NOT NULL"),
       ("movie_id", "INTEGER NOT NULL"), ("rating", "REAL NOT NULL"),
       ("timestamp", "INTEGER NOT NULL")]
    ∧ detect_tags_schema r =
      [("id", "INTEGER PRIMARY KEY"), ("user_id", "INTEGER NOT NULL"),
       ("movie_id", "INTEGER NOT NULL"), ("tag", "TEXT NOT NULL"),
       ("timestamp", "INTEGER NOT NULL")]
    ∧ detect_users_schema r =
      [("id", "INTEGER PRIMARY KEY"), ("name", "TEXT NOT NULL"),
       ("email", "TEXT NOT NULL"), ("gender", "TEXT"),
       ("register_date", "TEXT NOT NULL"), ("occupation", "TEXT")]
    ∧ generate_create_table_sql "movies" (detect_movies_schema r) =
      "DROP TABLE IF EXISTS movies;\nCREATE TABLE movies (\n    id INTEGER PRIMARY KEY,\n    title TEXT NOT NULL,\n    year INTEGER,\n    genres TEXT\n);\n"
    ∧ generate_create_table_sql "ratings" (detect_ratings_schema r) =
      "DROP TABLE IF EXISTS ratings;\nCREATE TABLE ratings (\n    id INTEGER PRIMARY KEY,\n    user_id INTEGER NOT NULL,\n    movie_id INTEGER NOT NULL,\n    rating REAL NOT NULL,\n    timestamp INTEGER NOT NULL\n);\n"
    ∧ generate_create_table_sql "tags" (detect_tags_schema r) =
      "DROP TABLE IF EXISTS tags;\nCREATE TABLE tags (\n    id INTEGER PRIMARY KEY,\n    user_id INTEGER NOT NULL,\n    movie_id INTEGER NOT NULL,\n    tag TEXT NOT NULL,\n    timestamp INTEGER NOT NULL\n);\n"
    ∧ generate_create_table_sql "users" (detect_users_schema r) =
      "DROP TABLE IF EXISTS users;\nCREATE TABLE users (\n    id INTEGER PRIMARY KEY,\n    name TEXT NOT NULL,\n    email TEXT NOT NULL,\n    gender TEXT,\n    register_date TEXT NOT NULL,\n    occupation TEXT\n);\n" := by
  intro r
  exact ⟨rfl, rfl, rfl, rfl, rfl, rfl, rfl, rfl⟩

/-- C8: every transformed movies row has exactly 4 values
`[id, title, year, genres]` built from the 3 guarded raw fields by splitting
field 2 through the Title Parser; the raw row
`["1", "Toy Story (1995)", "Adventure|Animation"]` produces exactly the
INSERT statement whose single row is
`(1, 'Toy Story', 1995, 'Adventure|Animation')`. -/
theorem movies_row_shape :
    (∀ r : List String,
       (movie_row_transform r).length = 4
       ∧ movie_row_transform r =
           [optStrVal r[0]?,
            optStrVal (extract_year_and_clean_title r[1]?).1,
            optIntVal (extract_year_and_clean_title r[1]?).2,
            optStrVal r[2]?])
    ∧ generate_insert_sql "movies" (detect_movies_schema [])
        [movie_row_transform ["1", "Toy Story (1995)", "Adventure|Animation"]]
        = "INSERT INTO movies (id, title, year, genres) VALUES\n(1, "
            ++ sqString ++ "Toy Story" ++ sqString ++ ", 1995, "
            ++ sqString ++ "Adventure|Animation" ++ sqString ++ ");\n" := by
  refine ⟨fun r => ⟨rfl, rfl⟩, ?_⟩
  decide

/-- C9: for every row with fewer fields than the table's declared columns
(with distinct column names, as in all four schemas), the value list of the
generated INSERT is total — one value per declared column — and every
missing trailing field is emitted as the literal `NULL`: the guarded access
`r[idx] if idx < len(r) else None` yields `None` out of range, which the
coercion maps to `NULL`. -/
theorem missing_fields_become_null :
    ∀ (columns : List (String × String)) (r : List PyVal) (i : Nat),
      (columns.map Prod.fst).Nodup → i < columns.length → r.length ≤ i →
      (rowVals columns r).length = columns.length
      ∧ (rowVals columns r)[i]? = some "NULL" := by
  intro columns r i hnd hi hr
  constructor
  · simp [rowVals]
  · rw [rowVals]
    simp only [List.getElem?_map]
    rw [List.getElem?_eq_getElem hi]
    have hmi : i < (columns.map Prod.fst).length := by simpa using hi
    have hname : (columns.map Prod.fst).indexOf columns[i].1 = i := by
      have hget : columns[i].1 = (columns.map Prod.fst).get ⟨i, hmi⟩ := by
        simp
      rw [hget]
      simpa using List.indexOf_getElem hnd i hmi
    simp only [Option.map_some']
    rw [hname, List.getElem?_eq_none hr]
    simp [coerce_value]

/-- C9 witness: the movies schema (4 distinct columns) with the one-field
row `["1"]` — position 2 (the `year` column) is emitted as `NULL`. -/
theorem missing_fields_become_null_w :
    (rowVals (detect_movies_schema []) [PyVal.vStr "1"]).length
        = (detect_movies_schema []).length
    ∧ (rowVals (detect_movies_schema []) [PyVal.vStr "1"])[2]? = some "NULL" :=
  missing_fields_become_null (detect_movies_schema []) [PyVal.vStr "1"] 2
    (by decide) (by decide) (by decide)

theorem digitRunAux_count_le : ∀ acc k cs, k ≤ (digitRunAux acc k cs).2.1 := by
  intro acc k cs
  induction acc, k, cs using digitRunAux.induct <;> simp_all [digitRunAux] <;>
    first
      | omega
      | (split <;> simp_all)

theorem digitRunAux_head_digit_pos (acc k : Nat) (c : Char) (cs : List Char)
    (h : pyIsDigit c = true) : k + 1 ≤ (digitRunAux acc k (c :: cs)).2.1 := by
  cases cs with
  | nil => simp [digitRunAux, h]
  | cons d cs =>
    rw [digitRunAux, if_pos h]
    exact digitRunAux_count_le _ (k + 1) (d :: cs)

theorem pyToLower_of_digit (c : Char) (h : pyIsDigit c = true) : pyToLower c = c := by
  rw [pyToLower, if_neg]
  rw [pyIsDigit] at h
  simp only [Bool.and_eq_true, decide_eq_true_eq] at h ⊢
  omega

/-- A string accepted by Python `int()` is also accepted by `float()`
(the float grammar extends the int grammar). -/
theorem py_int_some_float_some (s : String) (n : Int) (h : py_int_of_string s = some n) :
    ∃ f, py_float_of_string s = some f := by
  rw [py_int_of_string] at h
  rw [py_float_of_string]
  set p := parseSign (stripList s.toList) with hp
  cases hcs : p.2 with
  | nil => rw [hcs] at h; simp at h
  | cons c cs =>
    rw [hcs] at h
    dsimp only at h
    by_cases hd : pyIsDigit c
    · rw [if_pos hd] at h
      by_cases hrest : (digitRunAux 0 0 (c :: cs)).2.2 = []
      · have hlower : pyToLower c = c := pyToLower_of_digit c hd
        have hci : c ≠ 'i' := by intro he; rw [he] at hd; revert hd; decide
        have hcn : c ≠ 'n' := by intro he; rw [he] at hd; revert hd; decide
        rw [if_neg, if_neg]
        · rcases hr : digitRunAux 0 0 (c :: cs) with ⟨v, k, rest⟩
          rw [hr] at hrest
          simp only at hrest
          subst hrest
          have hk : 1 ≤ k := by
            have := digitRunAux_head_digit_pos 0 0 c cs hd
            rw [hr] at this
            simpa using this
          simp only [startDigitRun, if_pos hd, hr]
          rw [if_neg (by omega)]
          exact ⟨_, rfl⟩
        · intro hmap
          simp only [List.map] at hmap
          rw [show "nan".toList = ['n', 'a', 'n'] from rfl] at hmap
          injection hmap with h1 _
          rw [hlower] at h1
          exact hcn h1
        · intro hor
          rcases hor with h1 | h1 <;>
            (simp only [List.map] at h1)
          · rw [show "inf".toList = ['i', 'n', 'f'] from rfl] at h1
            injection h1 with h1a _
            rw [hlower] at h1a
            exact hci h1a
          · rw [show "infinity".toList = ['i', 'n', 'f', 'i', 'n', 'i', 't', 'y'] from rfl] at h1
            injection h1 with h1a _
            rw [hlower] at h1a
            exact hci h1a
      · rw [if_neg hrest] at h; simp at h
    · rw [if_neg hd] at h; simp at h

/-- If `try_float` fails on a value then so does `try_int` (contrapositive
of the grammar inclusion; `float` of an `int` value always succeeds). -/
theorem try_float_none_try_int_none (v : PyVal) (h : try_float v = none) :
    try_int v = none := by
  cases v with
  | vNone => rfl
  | vInt n => simp [try_float] at h
  | vStr s =>
    rw [try_int]
    cases hi : py_int_of_string s with
    | none => rfl
    | some n =>
      rcases py_int_some_float_some s n hi with ⟨f, hf⟩
      rw [try_float, hf] at h
      simp at h

/-- C2: value coercion is total (a Lean function) and never raises: a value
that is `None` or the empty string is emitted as the literal `NULL`; for a
column whose type contains `INTEGER` (respectively `REAL`), a value whose
integer (respectively float) parse fails is emitted as exactly the literal
`NULL`. -/
theorem coercion_null_policy :
    (∀ ctype : String, coerce_value ctype PyVal.vNone = "NULL")
    ∧ (∀ ctype : String, coerce_value ctype (PyVal.vStr "") = "NULL")
    ∧ (∀ (ctype : String) (v : PyVal),
         subListOf "INTEGER".toList ctype.toList = true → try_int v = none →
         coerce_value ctype v = "NULL")
    ∧ (∀ (ctype : String) (v : PyVal),
         subListOf "REAL".toList ctype.toList = true → try_float v = none →
         coerce_value ctype v = "NULL") := by
  refine ⟨fun ctype => by simp [coerce_value], fun ctype => by simp [coerce_value], ?_, ?_⟩
  · intro ctype v hint htry
    rw [coerce_value]
    split
    · rfl
    all_goals simp_all
  · intro ctype v hreal htry
    have hint2 := try_float_none_try_int_none v htry
    rw [coerce_value]
    split
    · rfl
    all_goals simp_all

/-- C2 witness: the non-numeric string `abc` under an `INTEGER` and under a
`REAL NOT NULL` column type is emitted as `NULL`. -/
theorem coercion_null_policy_w :
    coerce_value "INTEGER" (PyVal.vStr "abc") = "NULL"
    ∧ coerce_value "REAL NOT NULL" (PyVal.vStr "abc") = "NULL" :=
  ⟨coercion_null_policy.2.2.1 "INTEGER" (PyVal.vStr "abc") (by decide) (by decide),
   coercion_null_policy.2.2.2 "REAL NOT NULL" (PyVal.vStr "abc") (by decide) (by decide)⟩

/-- C1: the Title Parser maps `None` to `(None, None)`; with no trailing
`(YYYY)` match it returns the trimmed input and year `None`; on a match it
returns the four digits as the integer year and the title with the suffix
and trailing whitespace removed, additionally stripping one trailing comma
(and whitespace) left directly before the removed suffix.  In particular
`Toy Story (1995)` yields `("Toy Story", 1995)`, `Je, tu, il, elle (1974)`
yields `("Je, tu, il, elle", 1974)` with embedded commas untouched, and
`No Year Movie` yields `("No Year Movie", None)`. -/
theorem title_parser_spec :
    extract_year_and_clean_title none = (none, none)
    ∧ extract_year_and_clean_title (some "Toy Story (1995)") = (some "Toy Story", some 1995)
    ∧ extract_year_and_clean_title (some "Je, tu, il, elle (1974)")
        = (some "Je, tu, il, elle", some 1974)
    ∧ extract_year_and_clean_title (some "No Year Movie") = (some "No Year Movie", none)
    ∧ (∀ s : String, endsWithYearTag (pyStrip s).toList = false →
         extract_year_and_clean_title (some s) = (some (pyStrip s), none))
    ∧ (∀ (pre : List Char) (a b c d : Char) (s : String),
         pyIsDigit a = true → pyIsDigit b = true → pyIsDigit c = true → pyIsDigit d = true →
         pyStrip s = String.mk (pre ++ ['(', a, b, c, d, ')']) →
         extract_year_and_clean_title (some s)
           = (some (String.mk (stripTrailingComma (rstripList pre))),
              some (yearNum a b c d))) := by
  refine ⟨rfl, by decide, by decide, by decide, ?_, ?_⟩
  · intro s htag
    rw [extract_year_and_clean_title]
    split
    · rename_i c0 d3 d2 d1 d0 c5 rest heq
      rw [if_neg]
      intro hcond
      obtain ⟨h1, h2, h3, h4, h5, h6⟩ := hcond
      rw [endsWithYearTag, heq] at htag
      simp [h1, h2, h3, h4, h5, h6] at htag
    · rfl
  · intro pre a b c d s ha hb hc hd hs
    rw [extract_year_and_clean_title, hs]
    have hrev : (String.mk (pre ++ ['(', a, b, c, d, ')'])).toList.reverse
        = ')' :: d :: c :: b :: a :: '(' :: pre.reverse := by
      simp [List.reverse_append]
    rw [hrev]
    dsimp only
    rw [if_pos ⟨rfl, rfl, ha, hb, hc, hd⟩]
    simp [List.reverse_reverse]

/-- C1 witness: the match case applied to `" Title, The (1999)"` — the
trailing comma left before the removed year suffix is stripped. -/
theorem title_parser_spec_w :
    extract_year_and_clean_title (some " Title, The (1999)")
      = (some (String.mk (stripTrailingComma (rstripList "Title, The ".toList))),
         some (yearNum '1' '9' '9' '9')) :=
  title_parser_spec.2.2.2.2.2 "Title, The ".toList '1' '9' '9' '9' " Title, The (1999)"
    (by decide) (by decide) (by decide) (by decide) (by decide)

theorem isEmpty_false_iff (s : String) : (s.isEmpty = false) ↔ ¬ s = "" := by
  rw [Bool.eq_false_iff]
  exact not_congr (String.isEmpty_iff s)

/-- C7: for every file content and delimiter, the Row Reader yields exactly
the rows that are not empty (a row is empty iff every field is blank after
trimming), skipping the first record if and only if the first physical line
contains, case-insensitively, any member of the fixed keyword set
`{id, title, user_id, movie_id, rating, timestamp, name, email}`; otherwise
every record is data.  (The skipped unit is the first `csv.reader` record,
which is the first physical line whenever that line is not part of a quoted
multi-line field.) -/
theorem row_reader_spec : ∀ (content : String) (delim : Char),
    read_csv_rows content delim
      = (if headerKeywords.any
            (fun h => subListOf h.toList ((firstPhysicalLine content).toList.map pyToLower))
         then (csvParse content delim).drop 1
         else csvParse content delim).filter
          (fun row => decide (¬ ∀ f ∈ row, pyStrip f = "")) := by
  intro content delim
  rw [read_csv_rows]
  apply List.filter_congr
  intro row _
  cases row with
  | nil => simp
  | cons a as =>
    apply Bool.eq_iff_iff.mpr
    simp [List.any_eq_true, not_forall, isEmpty_false_iff]

/-- A non-empty row list yields a non-empty INSERT statement. -/
theorem generate_insert_sql_ne_empty (t : String) (cols : List (String × String))
    (rows : List (List PyVal)) (h : rows ≠ []) : generate_insert_sql t cols rows ≠ "" := by
  rw [generate_insert_sql]
  have hm : (rows.map fun r => "(" ++ String.intercalate ", " (rowVals cols r) ++ ")") ≠ [] := by
    simpa using h
  rw [if_neg (by simpa using hm)]
  intro heq
  have hlen := congrArg String.length heq
  simp only [String.length_append] at hlen
  have h12 : ("INSERT INTO ").length = 12 := rfl
  have h0 : ("" : String).length = 0 := rfl
  omega

theorem filter_insert_block (b : Bool) (x : String) (hx : b = false → x ≠ "") :
    (if b then ([] : List String) else [x]).filter (fun p => !p.isEmpty)
      = if b then [] else [x] := by
  cases b with
  | true => rfl
  | false =>
    have : x.isEmpty = false := by
      rw [← Bool.not_eq_true]
      intro hxe
      exact hx rfl ((String.isEmpty_iff x).mp hxe)
    simp [List.filter, this]

set_option maxRecDepth 4000 in
theorem build_script_eq (mr rr tr ur : List (List String)) :
    build_script mr rr tr ur = String.intercalate "\n\n"
      ([scriptHeader, "PRAGMA foreign_keys = OFF;", "BEGIN TRANSACTION;",
        generate_create_table_sql "movies" (detect_movies_schema (mr.headD [])),
        generate_create_table_sql "ratings" (detect_ratings_schema (rr.headD [])),
        generate_create_table_sql "tags" (detect_tags_schema (tr.headD [])),
        generate_create_table_sql "users" (detect_users_schema (ur.headD []))]
       ++ (if mr.isEmpty then [] else
            [generate_insert_sql "movies" (detect_movies_schema (mr.headD []))
              (mr.map movie_row_transform)])
       ++ (if rr.isEmpty then [] else
            [generate_insert_sql "ratings" (detect_ratings_schema (rr.headD []))
              (rr.map strRow)])
       ++ (if tr.isEmpty then [] else
            [generate_insert_sql "tags" (detect_tags_schema (tr.headD []))
              (tr.map strRow)])
       ++ (if ur.isEmpty then [] else
            [generate_insert_sql "users" (detect_users_schema (ur.headD []))
              (ur.map strRow)])
       ++ ["COMMIT;"]) := by
  rw [build_script]
  have hguard : (mr.map movie_row_transform).isEmpty = mr.isEmpty := by
    cases mr <;> rfl
  rw [hguard]
  congr 1
  rw [List.filter_append, List.filter_append, List.filter_append, List.filter_append,
    List.filter_append]
  rw [filter_insert_block _ _ (fun hb => generate_insert_sql_ne_empty _ _ _
        (by intro hmap; rw [List.map_eq_nil_iff] at hmap; subst hmap; simp at hb)),
    filter_insert_block _ _ (fun hb => generate_insert_sql_ne_empty _ _ _
        (by intro hmap; rw [List.map_eq_nil_iff] at hmap; subst hmap; simp at hb)),
    filter_insert_block _ _ (fun hb => generate_insert_sql_ne_empty _ _ _
        (by intro hmap; rw [List.map_eq_nil_iff] at hmap; subst hmap; simp at hb)),
    filter_insert_block _ _ (fun hb => generate_insert_sql_ne_empty _ _ _
        (by intro hmap; rw [List.map_eq_nil_iff] at hmap; subst hmap; simp at hb))]
  congr 5

/-- C5: the assembled script always consists, in this fixed order, of the
header comment, `PRAGMA foreign_keys = OFF;`, `BEGIN TRANSACTION;`, the four
DROP+CREATE blocks for movies, ratings, tags, users, then the four INSERT
blocks in the same table order — each present exactly when its dataset has
rows — then `COMMIT;`, the non-empty blocks joined by blank-line separation
with empty blocks skipped entirely. -/
theorem script_assembly_order : ∀ mr rr tr ur : List (List String),
    build_script mr rr tr ur = String.intercalate "\n\n"
      ([scriptHeader, "PRAGMA foreign_keys = OFF;", "BEGIN TRANSACTION;",
        generate_create_table_sql "movies" (detect_movies_schema (mr.headD [])),
        generate_create_table_sql "ratings" (detect_ratings_schema (rr.headD [])),
        generate_create_table_sql "tags" (detect_tags_schema (tr.headD [])),
        generate_create_table_sql "users" (detect_users_schema (ur.headD []))]
       ++ (if mr.isEmpty then [] else
            [generate_insert_sql "movies" (detect_movies_schema (mr.headD []))
              (mr.map movie_row_transform)])
       ++ (if rr.isEmpty then [] else
            [generate_insert_sql "ratings" (detect_ratings_schema (rr.headD []))
              (rr.map strRow)])
       ++ (if tr.isEmpty then [] else
            [generate_insert_sql "tags" (detect_tags_schema (tr.headD []))
              (tr.map strRow)])
       ++ (if ur.isEmpty then [] else
            [generate_insert_sql "users" (detect_users_schema (ur.headD []))
              (ur.map strRow)])
       ++ ["COMMIT;"]) :=
  fun mr rr tr ur => build_script_eq mr rr tr ur

set_option maxRecDepth 20000 in
/-- C6: for a dataset with zero rows the INSERT block is the empty string
and is omitted from the final output while the DROP/CREATE block is still
emitted, and no stray blank-line artifact appears where the block was
omitted: with the movies dataset empty the script is exactly the
concatenation without a movies INSERT entry, and with all four datasets
empty the script contains no INSERT at all and never stacks two blank
lines (no four consecutive newlines). -/
theorem empty_dataset_no_insert :
    (∀ (t : String) (cols : List (String × String)), generate_insert_sql t cols [] = "")
    ∧ (∀ rr tr ur : List (List String),
        build_script [] rr tr ur = String.intercalate "\n\n"
          ([scriptHeader, "PRAGMA foreign_keys = OFF;", "BEGIN TRANSACTION;",
            generate_create_table_sql "movies" (detect_movies_schema []),
            generate_create_table_sql "ratings" (detect_ratings_schema (rr.headD [])),
            generate_create_table_sql "tags" (detect_tags_schema (tr.headD [])),
            generate_create_table_sql "users" (detect_users_schema (ur.headD []))]
           ++ (if rr.isEmpty then [] else
                [generate_insert_sql "ratings" (detect_ratings_schema (rr.headD []))
                  (rr.map strRow)])
           ++ (if tr.isEmpty then [] else
                [generate_insert_sql "tags" (detect_tags_schema (tr.headD []))
                  (tr.map strRow)])
           ++ (if ur.isEmpty then [] else
                [generate_insert_sql "users" (detect_users_schema (ur.headD []))
                  (ur.map strRow)])
           ++ ["COMMIT;"]))
    ∧ subListOf "INSERT".toList (build_script [] [] [] []).toList = false
    ∧ subListOf "\n\n\n\n".toList (build_script [] [] [] []).toList = false := by
  refine ⟨fun t cols => rfl, ?_, by decide, by decide⟩
  intro rr tr ur
  have h := build_script_eq [] rr tr ur
  simpa using h
